import Mathlib

/-!
Shallow embedding of the GoQuant spot-exposure hedging bot (`src/main.py`,
class `HedgingBot`) and proofs of the spec's claims about it.

Modelling conventions:
* Python floats are embedded as `ℚ` (all constants in the source are exact
  decimals; no claim depends on float rounding).
* `datetime` timestamps are embedded as `ℕ` (whole seconds); the Python
  `timedelta.seconds` attribute — the seconds *component*, not the total
  elapsed seconds — is `timedeltaSeconds`.
* The random draws of `calculate_risk_metrics` (`np.random.uniform`) and the
  prices returned by `get_market_price` are inputs (`MarketDraws`), so every
  function is deterministic in its arguments.
* A Python exception escaping a block is an `Except.error` carrying the state
  as mutated up to the raise point.
* `save_hedge_history` appends the execution record to the (logged) history;
  the history is modelled as the list of records passed to it, in order.
-/

namespace HedgingBot

/-- The constant `RISK_THRESHOLDS['var']` in `src/main.py` (0.05, the global VaR threshold). -/
def RISK_THRESHOLDS_var : ℚ := 5 / 100

/-- The risk snapshot returned by `calculate_risk_metrics` on success
(the dict of lines 391–400 of `src/main.py`). -/
structure RiskMetrics where
  delta : ℚ
  gamma : ℚ
  theta : ℚ
  vega : ℚ
  var : ℚ
  price : ℚ
  volatility : ℚ
  liquidity : ℚ
  deriving DecidableEq, Repr

/-- Values of `hedge_status`: the string `'not_hedged'` or `f'hedged_{size}'`. -/
inductive HedgeStatus where
  | not_hedged : HedgeStatus
  | hedged (size : ℚ) : HedgeStatus
  deriving DecidableEq, Repr

/-- One entry of `self.active_monitors` (the dict built in `monitor_risk`,
lines 89–95, optionally extended by `auto_hedge` with `hedge_strategy` and
`hedge_threshold`; a key read with `.get` and absent is `none`). -/
structure Monitor where
  asset : String
  position_size : ℚ
  risk_threshold : ℚ
  last_alert : Option ℕ
  hedge_status : HedgeStatus
  hedge_strategy : Option String
  hedge_threshold : Option ℚ
  deriving DecidableEq, Repr

/-- Execution-detail record built by `execute_hedge` (lines 428–434) and by
`hedge_now` (lines 195–200), as handed to `save_hedge_history`. -/
structure HedgeExecution where
  asset : String
  size : ℚ
  price : ℚ
  timestamp : ℕ
  filled : Bool
  deriving DecidableEq, Repr

/-- Environment for one monitor evaluation in one tick: the values the mock
market-data calls and `np.random.uniform` draws produce. `hedgePrice` is the
price returned by the separate `get_market_price` call inside
`execute_hedge`. -/
structure MarketDraws where
  price : ℚ
  volatility : ℚ
  liquidity : ℚ
  delta : ℚ
  gamma : ℚ
  theta : ℚ
  vega : ℚ
  hedgePrice : ℚ
  deriving DecidableEq, Repr

/-- The mutable state of a `HedgingBot` instance: `self.active_monitors`
(an insertion-ordered dict, modelled as an association list),
`self.positions`, `self.risk_metrics` (an entry holding the empty dict `{}`
— stored when `calculate_risk_metrics` fails — is `none`, since every read
goes through `.get('delta', 0)` and cannot distinguish it from absence),
the history of records passed to `save_hedge_history`, and the log of risk
alerts sent (`send_risk_alert` calls), as `(chat_id, time)` pairs. -/
structure BotState where
  active_monitors : List (ℕ × Monitor)
  positions : String → Option ℚ
  risk_metrics : String → Option RiskMetrics
  hedge_history : List HedgeExecution
  alerts : List (ℕ × ℕ)

/-- Python-dict assignment `d[k] = v` on an association list: replaces the
value in place if the key is present, otherwise appends (insertion order). -/
def dictSet {α : Type} : List (ℕ × α) → ℕ → α → List (ℕ × α)
  | [], k, v => [(k, v)]
  | (k₀, v₀) :: rest, k, v =>
      if k₀ = k then (k, v) :: rest else (k₀, v₀) :: dictSet rest k v

/-- Point update of a function-backed map (`self.positions[a] = v` and
`self.risk_metrics[a] = v`). -/
def mapSet {β : Type} (f : String → β) (a : String) (v : β) : String → β :=
  fun x => if x = a then v else f x

/-- The condition `should_alert` of `run_risk_monitoring` (lines 320–324):
`abs(delta) > risk_threshold or var > RISK_THRESHOLDS['var']`. -/
def should_alert (delta risk_threshold var : ℚ) : Bool :=
  decide (|delta| > risk_threshold) || decide (var > RISK_THRESHOLDS_var)

/-- Python `timedelta.seconds` for a non-negative whole-second delta: the
seconds *component* after normalisation into days/seconds, i.e. mod 86400. -/
def timedeltaSeconds (delta : ℕ) : ℕ := delta % 86400

/-- The cooldown guard of `run_risk_monitoring` (lines 326–329):
`monitor.get('last_alert') is None or (datetime.now() - monitor['last_alert']).seconds > 300`. -/
def cooldown_ok (last_alert : Option ℕ) (now : ℕ) : Bool :=
  match last_alert with
  | none => true
  | some t => decide (300 < timedeltaSeconds (now - t))

/-- The risk metrics computed by `calculate_risk_metrics` (lines 377–400)
from the market-data values and random draws, for a given position size;
`var = min(0.2, max(0.01, delta * position_size * 0.5))`. -/
def computeMetrics (d : MarketDraws) (position_size : ℚ) : RiskMetrics :=
  { delta := d.delta
    gamma := d.gamma
    theta := d.theta
    vega := d.vega
    var := min (2/10) (max (1/100) (d.delta * position_size * (5/10)))
    price := d.price
    volatility := d.volatility
    liquidity := d.liquidity }

/-- The function `calculate_risk_metrics`: on any exception in the body (modelled as the
absent draws, `md = none`) the handler at lines 401–403 returns the empty
dict, modelled as `none`; otherwise the computed metrics. -/
def calculate_risk_metrics (md : Option MarketDraws) (position_size : ℚ) :
    Option RiskMetrics :=
  md.map (fun d => computeMetrics d position_size)

/-- The function `calculate_optimal_hedge` (lines 405–421): reads
`self.risk_metrics.get(asset, {}).get('delta', 0)` and
`self.positions.get(asset, 0)`; returns `0` if either is zero, else
`position_size * (abs(delta) * 1.0)`. -/
def calculate_optimal_hedge (risk_metrics : String → Option RiskMetrics)
    (positions : String → Option ℚ) (asset : String) : ℚ :=
  let delta := ((risk_metrics asset).map RiskMetrics.delta).getD 0
  let position_size := (positions asset).getD 0
  if delta = 0 ∨ position_size = 0 then 0
  else position_size * (|delta| * 1)

/-- The fresh monitor dict built by `monitor_risk` (lines 89–95): only the
five keys `asset`, `position_size`, `risk_threshold`, `last_alert` (None)
and `hedge_status` ('not_hedged') are set; `hedge_strategy` and
`hedge_threshold` are absent. -/
def freshMonitor (asset : String) (position_size risk_threshold : ℚ) : Monitor :=
  { asset := asset
    position_size := position_size
    risk_threshold := risk_threshold
    last_alert := none
    hedge_status := HedgeStatus.not_hedged
    hedge_strategy := none
    hedge_threshold := none }

/-- The handler `monitor_risk` (lines 76–105) after successful argument parsing:
unconditionally stores a fresh monitor under the chat id and sets
`self.positions[asset] = position_size`. No range or finiteness check is
performed on any argument. -/
def monitor_risk (s : BotState) (chat_id : ℕ) (asset : String)
    (position_size risk_threshold : ℚ) : BotState :=
  { s with
    active_monitors :=
      dictSet s.active_monitors chat_id (freshMonitor asset position_size risk_threshold)
    positions := mapSet s.positions asset (some position_size) }

/-- The function `execute_hedge` (lines 423–436): builds the execution record with the
size passed, the price `get_market_price` returns at call time and the
current timestamp, status `'filled'`, and hands it to `save_hedge_history`,
which appends it to the history log. -/
def execute_hedge (s : BotState) (asset : String) (size price : ℚ) (now : ℕ) :
    BotState :=
  { s with
    hedge_history :=
      s.hedge_history ++
        [{ asset := asset, size := size, price := price, timestamp := now,
           filled := true }] }

/-- The handler `hedge_now` (lines 173–205) after successful argument parsing. Line 187
does `self.active_monitors[chat_id]['hedge_status'] = f'hedged_{size}'`: on
a missing chat id this raises `KeyError`, caught by the handler at line 204,
which replies with an error (result `false`) — the success reply, the
record build and `save_hedge_history` are never reached. On a present chat
id it sets the status, replies success (result `true`), builds the record
and appends it. -/
def hedge_now (s : BotState) (chat_id : ℕ) (asset : String) (size price : ℚ)
    (now : ℕ) : BotState × Bool :=
  match (s.active_monitors.lookup chat_id : Option Monitor) with
  | none => (s, false)
  | some m =>
      let s₁ := { s with
        active_monitors :=
          dictSet s.active_monitors chat_id { m with hedge_status := HedgeStatus.hedged size } }
      (execute_hedge s₁ asset size price now, true)

/-- The body of the `for` loop of `run_risk_monitoring` (lines 310–337) for
one monitor. Stores the computed metrics (the empty dict, i.e. `none`, when
`calculate_risk_metrics` failed); a failed computation then raises
`KeyError` at line 320 (`risk_metrics['delta']`), escaping with the state
as mutated so far (`Except.error`). Otherwise evaluates the alert condition
and cooldown, sends the alert, stamps `last_alert`, and auto-hedges when a
strategy is set and `|delta|` exceeds `hedge_threshold` (default 1.0). -/
def processMonitor (now : ℕ) (md : Option MarketDraws) (s : BotState)
    (chat_id : ℕ) (m : Monitor) : Except BotState (BotState × Monitor) :=
  match md with
  | none => Except.error
      { s with risk_metrics := mapSet s.risk_metrics m.asset none }
  | some d =>
      let metrics := computeMetrics d m.position_size
      let s₁ := { s with risk_metrics := mapSet s.risk_metrics m.asset (some metrics) }
      if should_alert metrics.delta m.risk_threshold metrics.var &&
          cooldown_ok m.last_alert now then
        let s₂ := { s₁ with alerts := s₁.alerts ++ [(chat_id, now)] }
        let m₁ := { m with last_alert := some now }
        if m₁.hedge_strategy.isSome &&
            decide (|metrics.delta| > m₁.hedge_threshold.getD 1) then
          let hedge_size := calculate_optimal_hedge s₂.risk_metrics s₂.positions m.asset
          Except.ok (execute_hedge s₂ m.asset hedge_size d.hedgePrice now,
            { m₁ with hedge_status := HedgeStatus.hedged hedge_size })
        else
          Except.ok (s₂, m₁)
      else
        Except.ok (s₁, m)

/-- Iteration of the `for chat_id, monitor in list(...)` loop over the
remaining monitors. An exception from one monitor's body escapes the loop
(`raised = true`): the remaining monitors are not processed. A monitor's
in-place dict mutations are written back into `active_monitors`. -/
def runTick (now : ℕ) (env : ℕ → Option MarketDraws) :
    BotState → List (ℕ × Monitor) → BotState × Bool
  | s, [] => (s, false)
  | s, (chat_id, m) :: rest =>
      match processMonitor now (env chat_id) s chat_id m with
      | Except.error s₁ => (s₁, true)
      | Except.ok (s₁, m₁) =>
          runTick now env
            { s₁ with active_monitors := dictSet s₁.active_monitors chat_id m₁ } rest

/-- One iteration of the `while True` loop of `run_risk_monitoring`
(lines 306–343): run the tick over the current monitors; an escaping
exception is caught by the handler at lines 341–343, which logs and sleeps
30 s instead of the normal 10 s. The returned sleep duration is the delay
before the loop unconditionally runs again — the loop never terminates. -/
def run_risk_monitoring_tick (now : ℕ) (env : ℕ → Option MarketDraws)
    (s : BotState) : BotState × ℕ :=
  let r := runTick now env s s.active_monitors
  (r.1, if r.2 then 30 else 10)

/-- The state of a freshly constructed `HedgingBot` (lines 38–40): all
dicts empty, no history, no alerts sent. -/
def initial_state : BotState :=
  { active_monitors := []
    positions := fun _ => none
    risk_metrics := fun _ => none
    hedge_history := []
    alerts := [] }

/-- The state component of a loop-body outcome (the state as left behind
whether or not an exception escaped). -/
def tickResultState (r : Except BotState (BotState × Monitor)) : BotState :=
  match r with
  | Except.error s => s
  | Except.ok (s, _) => s

/-- The monitor dict after a loop-body outcome (unchanged when an exception
escaped before any in-place mutation of it). -/
def tickResultMonitor (m : Monitor) (r : Except BotState (BotState × Monitor)) :
    Monitor :=
  match r with
  | Except.error _ => m
  | Except.ok (_, m₁) => m₁

/-- The record `execute_hedge` builds and saves for one call
`(size, price, timestamp)`. -/
def execRecordOf (asset : String) (c : ℚ × ℚ × ℕ) : HedgeExecution :=
  { asset := asset, size := c.1, price := c.2.1, timestamp := c.2.2, filled := true }

/-- A sequence of successful `execute_hedge` calls for one asset, each with
its own size and observed price/timestamp. -/
def executeMany (s : BotState) (asset : String) (calls : List (ℚ × ℚ × ℕ)) :
    BotState :=
  calls.foldl (fun st c => execute_hedge st asset c.1 c.2.1 c.2.2) s

/-- A monitor with every optional field populated (alerted, hedged, with a
strategy), used to witness that replacement discards all of it. -/
def staleMonitor : Monitor :=
  { asset := "BTC", position_size := 2, risk_threshold := 1/10,
    last_alert := some 100, hedge_status := HedgeStatus.hedged 3,
    hedge_strategy := some "delta_neutral", hedge_threshold := some (1/20) }

/-- A state whose subscriber 1 already holds `staleMonitor`. -/
def staleState : BotState :=
  { initial_state with active_monitors := [(1, staleMonitor)] }

/-- A monitor for `"BTC"` that alerted at time 0 (10 % risk threshold, no
auto-hedge), for exercising the cooldown. -/
def monitorBTC : Monitor :=
  { asset := "BTC", position_size := 3/2, risk_threshold := 1/10,
    last_alert := some 0, hedge_status := HedgeStatus.not_hedged,
    hedge_strategy := none, hedge_threshold := none }

/-- Draws giving `delta = 0.15`, well above the 10 % threshold (and a VaR
of `0.1125 > 0.05`), so the alert condition holds. -/
def drawsAlert : MarketDraws :=
  { price := 62000, volatility := 3/100, liquidity := 90,
    delta := 3/20, gamma := 2/100, theta := 0, vega := 1/100,
    hedgePrice := 62000 }

/-- State holding only `monitorBTC` for subscriber 1. -/
def stateBTC : BotState :=
  { initial_state with
    active_monitors := [(1, monitorBTC)]
    positions := mapSet initial_state.positions "BTC" (some (3/2)) }

/-- Every monitor evaluation sees `drawsAlert`. -/
def envAlert : ℕ → Option MarketDraws := fun _ => some drawsAlert

/-- A monitor for `"ETH"` that never alerted. -/
def monitorETH : Monitor :=
  { asset := "ETH", position_size := 1, risk_threshold := 1/10,
    last_alert := none, hedge_status := HedgeStatus.not_hedged,
    hedge_strategy := none, hedge_threshold := none }

/-- Two monitors: subscriber 1 on `"BTC"`, subscriber 2 on `"ETH"`. -/
def stateTwo : BotState :=
  { initial_state with active_monitors := [(1, monitorBTC), (2, monitorETH)] }

/-- Monitor 1's evaluation fails (`calculate_risk_metrics` returns `{}`),
monitor 2's would succeed. -/
def envFirstFails : ℕ → Option MarketDraws :=
  fun chat_id => if chat_id = 1 then none else some drawsAlert

/-- A monitor with an auto-hedge strategy configured at a 5 % hedge
threshold (the spec's end-to-end scenario). -/
def monitorAuto : Monitor :=
  { asset := "BTC", position_size := 3/2, risk_threshold := 1/10,
    last_alert := none, hedge_status := HedgeStatus.not_hedged,
    hedge_strategy := some "delta_neutral", hedge_threshold := some (1/20) }

/-- Draws giving `delta = 0.12` for the auto-hedge scenario. -/
def drawsAuto : MarketDraws :=
  { price := 62000, volatility := 3/100, liquidity := 90,
    delta := 12/100, gamma := 2/100, theta := 0, vega := 1/100,
    hedgePrice := 61900 }

/-- State holding `monitorAuto` for subscriber 1, position 1.5 BTC. -/
def stateAuto : BotState :=
  { initial_state with
    active_monitors := [(1, monitorAuto)]
    positions := mapSet initial_state.positions "BTC" (some (3/2)) }

@[simp]
theorem computeMetrics_delta (d : MarketDraws) (ps : ℚ) :
    (computeMetrics d ps).delta = d.delta := rfl

theorem lookup_dictSet_self {α : Type} (l : List (ℕ × α)) (k : ℕ) (v : α) :
    (dictSet l k v).lookup k = some v := by
  induction l with
  | nil => simp [dictSet, List.lookup]
  | cons p rest ih =>
      obtain ⟨k₀, v₀⟩ := p
      by_cases h : k₀ = k
      · simp [dictSet, h, List.lookup]
      · have hne : (k == k₀) = false := beq_eq_false_iff_ne.mpr (Ne.symm h)
        simp [dictSet, h, List.lookup, hne, ih]

theorem calculate_optimal_hedge_eq (rm : String → Option RiskMetrics)
    (pos : String → Option ℚ) (a : String) (met : RiskMetrics) (ps : ℚ)
    (hrm : rm a = some met) (hpos : pos a = some ps) :
    calculate_optimal_hedge rm pos a = ps * |met.delta| := by
  unfold calculate_optimal_hedge
  rw [hrm, hpos]
  by_cases hd : met.delta = 0
  · simp [hd]
  · by_cases hp : ps = 0
    · simp [hp]
    · simp only [Option.map_some', Option.getD_some]
      rw [if_neg (by tauto)]
      ring

theorem executeMany_history (asset : String) (calls : List (ℚ × ℚ × ℕ)) :
    ∀ s : BotState, (executeMany s asset calls).hedge_history
      = s.hedge_history ++ calls.map (execRecordOf asset) := by
  induction calls with
  | nil => intro s; simp [executeMany]
  | cons c cs ih =>
      intro s
      have hstep : executeMany s asset (c :: cs)
          = executeMany (execute_hedge s asset c.1 c.2.1 c.2.2) asset cs := rfl
      rw [hstep, ih, execute_hedge]
      simp [execRecordOf]

section Claims

/-- C1: the loop's alert decision (lines 320–324) is
`|delta| > risk_threshold ∨ var > 0.05`, both comparisons strict: in
particular `|delta| = risk_threshold` together with `var = 0.05` does not
alert. -/
theorem should_alert_strict_iff (d t v : ℚ) :
    (should_alert d t v = true ↔ (|d| > t ∨ v > RISK_THRESHOLDS_var)) ∧
    (|d| = t → v = RISK_THRESHOLDS_var → should_alert d t v = false) := by
  constructor
  · simp [should_alert]
  · intro h₁ h₂
    simp [should_alert, h₁, h₂]

/-- Witness for C1 at `d = 1/10`, `t = 1/10`, `v = 0.05`: no alert on the
exact boundary. -/
theorem should_alert_strict_iff_witness :
    should_alert (1/10) (1/10) RISK_THRESHOLDS_var = false :=
  (should_alert_strict_iff (1/10) (1/10) RISK_THRESHOLDS_var).2 (by norm_num) rfl

/-- C8: the VaR field computed by `calculate_risk_metrics` (line 389) is
`delta * position_size * 0.5` clamped into `[0.01, 0.2]`, and in particular
always lies in `[0.01, 0.2]`. -/
theorem var_clamped (d : MarketDraws) (ps : ℚ) :
    (computeMetrics d ps).var = max (1/100) (min (2/10) (d.delta * ps * (5/10))) ∧
    1/100 ≤ (computeMetrics d ps).var ∧ (computeMetrics d ps).var ≤ 2/10 := by
  refine ⟨?_, ?_, ?_⟩
  · show min (2/10) (max (1/100) (d.delta * ps * (5/10)))
        = max (1/100) (min (2/10) (d.delta * ps * (5/10)))
    rw [max_min_distrib_left, max_eq_right (by norm_num : (1:ℚ)/100 ≤ 2/10)]
  · exact le_min (by norm_num) (le_max_left _ _)
  · exact min_le_left _ _

/-- C7: `calculate_optimal_hedge` returns `0` when no snapshot is stored
for the asset or when the stored position is absent or `0`; whenever a
snapshot and a position are stored it returns
`position_size * |delta|` (also when `delta = 0`, where both sides are
`0`). It is a pure function of the two stores. -/
theorem calculate_optimal_hedge_spec (rm : String → Option RiskMetrics)
    (pos : String → Option ℚ) (a : String) :
    (rm a = none → calculate_optimal_hedge rm pos a = 0) ∧
    (pos a = none ∨ pos a = some 0 → calculate_optimal_hedge rm pos a = 0) ∧
    (∀ met ps, rm a = some met → pos a = some ps →
      calculate_optimal_hedge rm pos a = ps * |met.delta|) := by
  refine ⟨?_, ?_, fun met ps hrm hpos => calculate_optimal_hedge_eq rm pos a met ps hrm hpos⟩
  · intro h
    simp [calculate_optimal_hedge, h]
  · rintro (h | h) <;> simp [calculate_optimal_hedge, h]

/-- Witness for C7: no snapshot stored for `"ETH"` in the initial state,
so the recommendation is `0`. -/
theorem calculate_optimal_hedge_spec_witness :
    calculate_optimal_hedge initial_state.risk_metrics initial_state.positions "ETH" = 0 :=
  (calculate_optimal_hedge_spec initial_state.risk_metrics initial_state.positions "ETH").1 rfl

/-- C5: after `N` successful `execute_hedge` calls for an asset, the hedge
history equals the old history with exactly the `N` new records appended in
order — so its length grows by exactly `N`, the per-asset history grows by
exactly `N`, every existing record is untouched, and each new record keeps
the size passed and the price and timestamp observed at its call. -/
theorem hedge_history_append_only (s : BotState) (asset : String)
    (calls : List (ℚ × ℚ × ℕ)) :
    (executeMany s asset calls).hedge_history
      = s.hedge_history ++ calls.map (execRecordOf asset) ∧
    (executeMany s asset calls).hedge_history.length
      = s.hedge_history.length + calls.length ∧
    ((executeMany s asset calls).hedge_history.filter
        (fun r => r.asset == asset)).length
      = (s.hedge_history.filter (fun r => r.asset == asset)).length + calls.length := by
  refine ⟨executeMany_history asset calls s, ?_, ?_⟩
  · rw [executeMany_history asset calls s]; simp
  · rw [executeMany_history asset calls s]
    simp [List.filter_append, List.filter_map, Function.comp, execRecordOf]

/-- C4 counterexample: `risk_threshold = 5` lies outside `[0,1]`, yet
`monitor_risk` does not fail — it creates the monitor and sets the
position. -/
theorem monitor_risk_accepts_out_of_range_cex :
    ¬ ((5:ℚ) ≤ 1) ∧
    (monitor_risk initial_state 1 "BTC" (3/2) 5).active_monitors.lookup 1
      = some (freshMonitor "BTC" (3/2) 5) ∧
    (monitor_risk initial_state 1 "BTC" (3/2) 5).positions "BTC" = some (3/2) := by
  refine ⟨by norm_num, rfl, ?_⟩
  simp [monitor_risk, mapSet, initial_state]

/-- C4 amended: `monitor_risk` performs no range or finiteness validation —
for every numeric `risk_threshold` (also outside `[0,1]`) and every
`position_size` it creates/replaces the subscriber's monitor and sets
`positions[asset] = position_size`. -/
theorem monitor_risk_no_validation (s : BotState) (chat_id : ℕ) (asset : String)
    (ps t : ℚ) :
    (monitor_risk s chat_id asset ps t).active_monitors.lookup chat_id
      = some (freshMonitor asset ps t) ∧
    (monitor_risk s chat_id asset ps t).positions asset = some ps := by
  constructor
  · exact lookup_dictSet_self s.active_monitors chat_id (freshMonitor asset ps t)
  · simp [monitor_risk, mapSet]

/-- C9: when the subscriber already has a monitor, a new `monitor_risk`
stores a completely fresh one: `last_alert` unset, `hedge_status`
`not_hedged`, no hedge strategy or threshold carried over, whatever the old
monitor's state was. -/
theorem monitor_risk_replaces_fresh (s : BotState) (chat_id : ℕ) (old : Monitor)
    (_hold : s.active_monitors.lookup chat_id = some old)
    (asset : String) (ps t : ℚ) :
    ∃ m, (monitor_risk s chat_id asset ps t).active_monitors.lookup chat_id = some m
      ∧ m.last_alert = none ∧ m.hedge_status = HedgeStatus.not_hedged
      ∧ m.hedge_strategy = none ∧ m.hedge_threshold = none
      ∧ m.asset = asset ∧ m.position_size = ps ∧ m.risk_threshold = t :=
  ⟨freshMonitor asset ps t,
    lookup_dictSet_self s.active_monitors chat_id (freshMonitor asset ps t),
    rfl, rfl, rfl, rfl, rfl, rfl, rfl⟩

/-- Witness for C9: replacing `staleMonitor` (alerted, hedged, strategy
set) yields a completely fresh monitor. -/
theorem monitor_risk_replaces_fresh_witness :
    ∃ m, (monitor_risk staleState 1 "ETH" 4 (2/10)).active_monitors.lookup 1 = some m
      ∧ m.last_alert = none ∧ m.hedge_status = HedgeStatus.not_hedged
      ∧ m.hedge_strategy = none ∧ m.hedge_threshold = none
      ∧ m.asset = "ETH" ∧ m.position_size = 4 ∧ m.risk_threshold = 2/10 :=
  monitor_risk_replaces_fresh staleState 1 staleMonitor rfl "ETH" 4 (2/10)

/-- C10: a `hedge_now` for a subscriber with no active monitor raises
`KeyError` before any mutation; the handler reports an error to the caller
and the state — monitors, positions, history — is returned exactly
unchanged. -/
theorem hedge_now_requires_monitor (s : BotState) (chat_id : ℕ) (asset : String)
    (size price : ℚ) (now : ℕ)
    (h : s.active_monitors.lookup chat_id = none) :
    hedge_now s chat_id asset size price now = (s, false) := by
  simp [hedge_now, h]

/-- Witness for C10: `hedge_now` on the initial state fails and changes
nothing. -/
theorem hedge_now_requires_monitor_witness :
    hedge_now initial_state 7 "ETH" (1/2) 3400 0 = (initial_state, false) :=
  hedge_now_requires_monitor initial_state 7 "ETH" (1/2) 3400 0 rfl

/-- C2 (code bug): the cooldown at lines 326–329 compares
`timedelta.seconds` — the seconds *component*, `Δ mod 86400` — not the
elapsed seconds, contradicting the inline `# 5 min cooldown` comment. With
the alert condition holding, a tick 86 460 s (1 day 60 s) after the last
alert sends no alert even though far more than 300 s elapsed, while a tick
400 s after it does. -/
theorem cooldown_seconds_component_bug :
    300 < 86460 ∧
    should_alert drawsAlert.delta monitorBTC.risk_threshold
      (computeMetrics drawsAlert monitorBTC.position_size).var = true ∧
    cooldown_ok monitorBTC.last_alert 86460 = false ∧
    (run_risk_monitoring_tick 86460 envAlert stateBTC).1.alerts = [] ∧
    (run_risk_monitoring_tick 400 envAlert stateBTC).1.alerts = [(1, 400)] := by
  refine ⟨by norm_num, ?_, ?_, ?_, ?_⟩
  · norm_num [should_alert, drawsAlert, monitorBTC, computeMetrics, RISK_THRESHOLDS_var]
  · norm_num [cooldown_ok, monitorBTC, timedeltaSeconds]
  · norm_num [run_risk_monitoring_tick, runTick, processMonitor, envAlert, stateBTC,
      monitorBTC, drawsAlert, computeMetrics, should_alert, cooldown_ok, timedeltaSeconds,
      RISK_THRESHOLDS_var, mapSet, initial_state, execute_hedge, calculate_optimal_hedge]
  · norm_num [run_risk_monitoring_tick, runTick, processMonitor, envAlert, stateBTC,
      monitorBTC, drawsAlert, computeMetrics, should_alert, cooldown_ok, timedeltaSeconds,
      RISK_THRESHOLDS_var, mapSet, initial_state, execute_hedge, calculate_optimal_hedge]

/-- C3 counterexample: with monitor 1 failing and monitor 2 satisfying the
alert condition, the tick sends no alert and never stores metrics for
`"ETH"` — the failure of monitor 1 skips monitor 2 for the whole tick, not
only the failing monitor. -/
theorem tick_error_not_isolated_cex :
    should_alert drawsAlert.delta monitorETH.risk_threshold
      (computeMetrics drawsAlert monitorETH.position_size).var = true ∧
    cooldown_ok monitorETH.last_alert 0 = true ∧
    (run_risk_monitoring_tick 0 envFirstFails stateTwo).1.alerts = [] ∧
    (run_risk_monitoring_tick 0 envFirstFails stateTwo).1.risk_metrics "ETH" = none := by
  refine ⟨?_, rfl, ?_, ?_⟩
  · norm_num [should_alert, drawsAlert, monitorETH, computeMetrics, RISK_THRESHOLDS_var]
  · norm_num [run_risk_monitoring_tick, runTick, processMonitor, envFirstFails, stateTwo,
      monitorBTC, monitorETH, mapSet, initial_state]
  · norm_num [run_risk_monitoring_tick, runTick, processMonitor, envFirstFails, stateTwo,
      monitorBTC, monitorETH, mapSet, initial_state]

/-- C3 amended: a failure while evaluating one monitor raises out of the
per-tick `for` loop, wherever the monitor sits in the iteration order: when
the loop (with any state accumulated from the monitors already processed)
reaches the failing monitor, the whole remaining suffix is skipped — the
result is exactly the state at that point with only the failing monitor's
empty-metrics write, and the exception flag is raised. The exception is
caught at the loop boundary (lines 341–343): whenever a tick raised, the
loop backs off 30 s and runs again — it never terminates on a per-item
error. -/
theorem tick_error_aborts_tick_but_loop_continues (now : ℕ)
    (env : ℕ → Option MarketDraws) (chat_id : ℕ) (m : Monitor)
    (hfail : env chat_id = none) :
    (∀ (s : BotState) (rest : List (ℕ × Monitor)),
      runTick now env s ((chat_id, m) :: rest)
        = ({ s with risk_metrics := mapSet s.risk_metrics m.asset none }, true)) ∧
    (∀ s : BotState, (runTick now env s s.active_monitors).2 = true →
      (run_risk_monitoring_tick now env s).2 = 30) := by
  constructor
  · intro s rest
    simp [runTick, processMonitor, hfail]
  · intro s hraised
    simp [run_risk_monitoring_tick, hraised]

/-- Witness for the amended C3 at the concrete two-monitor state: monitor 1
fails, monitor 2 is skipped (only the empty-metrics write happens), and the
loop backs off 30 s. -/
theorem tick_error_aborts_tick_but_loop_continues_witness :
    runTick 0 envFirstFails stateTwo ((1, monitorBTC) :: [(2, monitorETH)])
      = ({ stateTwo with
            risk_metrics := mapSet stateTwo.risk_metrics monitorBTC.asset none },
          true) ∧
    (run_risk_monitoring_tick 0 envFirstFails stateTwo).2 = 30 := by
  have h := tick_error_aborts_tick_but_loop_continues 0 envFirstFails 1 monitorBTC rfl
  refine ⟨h.1 stateTwo [(2, monitorETH)], h.2 stateTwo ?_⟩
  rw [show stateTwo.active_monitors = (1, monitorBTC) :: [(2, monitorETH)] from rfl,
    h.1 stateTwo [(2, monitorETH)]]

/-- C6: in a tick, for a monitor whose stored position matches its
`position_size`, a hedge record is appended if and only if the alert fired
(alert condition and cooldown both passed) *and* a hedge strategy is set
*and* `|delta|` strictly exceeds `hedge_threshold` (default `1.0`); when it
does, exactly one record of size `position_size * |delta|` is appended and
the monitor's status becomes `hedged` of that size. -/
theorem auto_hedge_iff (now : ℕ) (d : MarketDraws) (s : BotState)
    (chat_id : ℕ) (m : Monitor)
    (hpos : s.positions m.asset = some m.position_size) :
    ((tickResultState (processMonitor now (some d) s chat_id m)).hedge_history
        ≠ s.hedge_history
      ↔ (should_alert d.delta m.risk_threshold
            (computeMetrics d m.position_size).var
          && cooldown_ok m.last_alert now
          && (m.hedge_strategy.isSome
              && decide (|d.delta| > m.hedge_threshold.getD 1))) = true) ∧
    ((should_alert d.delta m.risk_threshold (computeMetrics d m.position_size).var
        && cooldown_ok m.last_alert now
        && (m.hedge_strategy.isSome
            && decide (|d.delta| > m.hedge_threshold.getD 1))) = true →
      (tickResultState (processMonitor now (some d) s chat_id m)).hedge_history
        = s.hedge_history ++
          [{ asset := m.asset, size := m.position_size * |d.delta|,
             price := d.hedgePrice, timestamp := now, filled := true }] ∧
      (tickResultMonitor m (processMonitor now (some d) s chat_id m)).hedge_status
        = HedgeStatus.hedged (m.position_size * |d.delta|)) := by
  have hsize : calculate_optimal_hedge
      (mapSet s.risk_metrics m.asset (some (computeMetrics d m.position_size)))
      s.positions m.asset = m.position_size * |d.delta| := by
    have h := calculate_optimal_hedge_eq
      (mapSet s.risk_metrics m.asset (some (computeMetrics d m.position_size)))
      s.positions m.asset (computeMetrics d m.position_size) m.position_size
      (by simp [mapSet]) hpos
    simpa [computeMetrics] using h
  by_cases hA : (should_alert d.delta m.risk_threshold
      (computeMetrics d m.position_size).var && cooldown_ok m.last_alert now) = true
  · by_cases hH : (m.hedge_strategy.isSome
        && decide (|d.delta| > m.hedge_threshold.getD 1)) = true
    · have hres : (tickResultState (processMonitor now (some d) s chat_id m)).hedge_history
          = s.hedge_history ++
            [{ asset := m.asset, size := m.position_size * |d.delta|,
               price := d.hedgePrice, timestamp := now, filled := true }] ∧
          (tickResultMonitor m (processMonitor now (some d) s chat_id m)).hedge_status
          = HedgeStatus.hedged (m.position_size * |d.delta|) := by
        constructor <;>
          simp [processMonitor, tickResultState, tickResultMonitor, hA, hH,
            execute_hedge, hsize]
      refine ⟨?_, fun _ => hres⟩
      rw [hres.1]
      refine iff_of_true ?_ (by rw [hA, hH]; rfl)
      intro habs
      have hlen := congrArg List.length habs
      simp at hlen
    · have hres : (tickResultState (processMonitor now (some d) s chat_id m)).hedge_history
          = s.hedge_history := by
        simp [processMonitor, tickResultState, hA, hH]
      refine ⟨?_, fun hc => ?_⟩
      · rw [hres]
        constructor
        · intro habs
          exact absurd rfl habs
        · intro hc
          rw [Bool.and_eq_true] at hc
          exact absurd hc.2 hH
      · rw [Bool.and_eq_true] at hc
        exact absurd hc.2 hH
  · have hres : (tickResultState (processMonitor now (some d) s chat_id m)).hedge_history
        = s.hedge_history := by
      simp [processMonitor, tickResultState, hA]
    refine ⟨?_, fun hc => ?_⟩
    · rw [hres]
      constructor
      · intro habs
        exact absurd rfl habs
      · intro hc
        rw [Bool.and_eq_true] at hc
        exact absurd hc.1 hA
    · rw [Bool.and_eq_true] at hc
      exact absurd hc.1 hA

/-- Witness for C6: the spec's end-to-end auto-hedge scenario — delta 0.12
over a 0.05 hedge threshold on a 1.5 position gives a hedge of
`1.5 * |0.12| = 0.18` and status `hedged` of that size. -/
theorem auto_hedge_iff_witness :
    (tickResultMonitor monitorAuto
        (processMonitor 5 (some drawsAuto) stateAuto 1 monitorAuto)).hedge_status
      = HedgeStatus.hedged (monitorAuto.position_size * |drawsAuto.delta|) :=
  ((auto_hedge_iff 5 drawsAuto stateAuto 1 monitorAuto
      (by norm_num [stateAuto, monitorAuto, mapSet, initial_state])).2
    (by norm_num [should_alert, drawsAuto, monitorAuto, computeMetrics,
      RISK_THRESHOLDS_var, cooldown_ok, timedeltaSeconds, abs])).2

end Claims

end HedgingBot
